import Mathlib

/- Shallow embedding of `src/ffi/mod.rs` from the muchat repository: a thin
FFI boundary layer between safe Rust and a native chat library.  Strings are
modelled as lists of byte values (`List Nat`, each element a byte 0..255),
raw C pointers as natural-number addresses (`0` playing the role of null),
and the opaque native library as an explicit record of abstract functions.
Every wrapper operation additionally returns the list of native calls it
performed, so that "the native function is never invoked" is expressible. -/

namespace Ffi

/-- Raw pointer model: a `*mut c_char` / `*const c_char` address; `0` is null. -/
abbrev Ptr := Nat

/-- Byte strings: a Rust `&str` / `&[u8]` / C buffer as its list of byte values. -/
abbrev Bytes := List Nat

/-- The error enum of `src/ffi/mod.rs` lines 11-18.  `Utf8Error` drops the
position payload of `std::str::Utf8Error` and `IoError` drops the wrapped
`std::io::Error`; `ChatError`'s `String` payload is kept as its UTF-8 bytes. -/
inductive Error where
  | InvalidString
  | NullPointer
  | Utf8Error
  | IoError
  | ChatError (msg : Bytes)
  deriving DecidableEq

/-- One call into the native library, recorded with the exact marshaled
arguments handed across the boundary: C strings carry their terminating
0 byte, byte buffers carry the raw bytes plus the `c_int` length argument. -/
inductive NativeCall where
  | sendMessage (msg : Bytes)
  | chat_migrate_init (path key confirm : Bytes)
  | chat_migrate_init_key (path key : Bytes) (keepKey : Int) (confirm : Bytes) (bg : Int)
  | chat_close_store (ctrl : Ptr)
  | chat_reopen_store (ctrl : Ptr)
  | chat_send_cmd (ctrl : Ptr) (cmd : Bytes)
  | chat_send_remote_cmd (ctrl : Ptr) (rhId : Int) (cmd : Bytes)
  | chat_recv_msg (ctrl : Ptr)
  | chat_recv_msg_wait (ctrl : Ptr) (wait : Int)
  | chat_parse_markdown (s : Bytes)
  | chat_parse_server (s : Bytes)
  | chat_password_hash (pwd salt : Bytes)
  | chat_valid_name (nm : Bytes)
  | chat_json_length (s : Bytes)
  | chat_write_file (ctrl : Ptr) (path data : Bytes) (length : Int)
  | chat_read_file (path key nonce : Bytes)
  | chat_encrypt_file (ctrl : Ptr) (fromPath toPath : Bytes)
  | chat_decrypt_file (fromPath key nonce toPath : Bytes)
  | chat_encrypt_media (ctrl : Ptr) (key frame : Bytes) (length : Int)
  | chat_decrypt_media (key frame : Bytes) (length : Int)
  deriving DecidableEq

/-- The opaque native library (the `external` module, lines 52-128): one
abstract function per foreign symbol whose return value the wrapper uses.
Functions returning `*const c_char` yield a raw address; `chat_read_file`
yields `none` for a null result pointer or `some bytes` for the buffer the
returned pointer points at (the decoded-from memory, since the wrapper
dereferences only this one result). -/
structure Native where
  chat_migrate_init : Bytes → Bytes → Bytes → Ptr × Ptr
  chat_migrate_init_key : Bytes → Bytes → Int → Bytes → Int → Ptr × Ptr
  chat_close_store : Ptr → Ptr
  chat_reopen_store : Ptr → Ptr
  chat_send_cmd : Ptr → Bytes → Ptr
  chat_send_remote_cmd : Ptr → Int → Bytes → Ptr
  chat_recv_msg : Ptr → Ptr
  chat_recv_msg_wait : Ptr → Int → Ptr
  chat_parse_markdown : Bytes → Ptr
  chat_parse_server : Bytes → Ptr
  chat_password_hash : Bytes → Bytes → Ptr
  chat_valid_name : Bytes → Ptr
  chat_json_length : Bytes → Int
  chat_write_file : Ptr → Bytes → Bytes → Int → Ptr
  chat_read_file : Bytes → Bytes → Bytes → Option Bytes
  chat_encrypt_file : Ptr → Bytes → Bytes → Ptr
  chat_decrypt_file : Bytes → Bytes → Bytes → Bytes → Ptr
  chat_encrypt_media : Ptr → Bytes → Bytes → Int → Ptr
  chat_decrypt_media : Bytes → Bytes → Int → Ptr

/-- Result of running one wrapper operation: the Rust `Result` value together
with the trace of native calls the operation performed. -/
structure FfiRun (α : Type) where
  result : Except Error α
  calls : List NativeCall

/-- Rust `CString::new`: fails with `NulError` (converted to
`Error::InvalidString` by the `From` impl at lines 34-38) when the bytes
contain an interior 0; otherwise produces the 0-terminated C string. -/
def cstring_new (s : Bytes) : Except Error Bytes :=
  if 0 ∈ s then .error .InvalidString else .ok (s ++ [0])

/-- UTF-8 continuation byte test: `0x80..=0xBF`. -/
def isUtf8Cont (b : Nat) : Bool := 0x80 ≤ b && b ≤ 0xBF

/-- The UTF-8 well-formedness check performed by Rust `str::from_utf8`
(`CStr::to_str`): ASCII passes; 2-byte sequences need a lead in
`0xC2..=0xDF`; 3-byte sequences exclude overlongs (lead `0xE0` needs a first
continuation in `0xA0..=0xBF`) and surrogates (lead `0xED` caps it at
`0x9F`); 4-byte sequences exclude overlongs (lead `0xF0` needs `0x90..`) and
code points above `0x10FFFF` (lead `0xF4` caps the first continuation at
`0x8F`, leads above `0xF4` are invalid). -/
def validUtf8 : Bytes → Bool
  | [] => true
  | b0 :: rest =>
    if b0 < 0x80 then validUtf8 rest
    else if 0xC2 ≤ b0 && b0 ≤ 0xDF then
      match rest with
      | b1 :: rest2 => isUtf8Cont b1 && validUtf8 rest2
      | [] => false
    else if 0xE0 ≤ b0 && b0 ≤ 0xEF then
      match rest with
      | b1 :: b2 :: rest3 =>
        (if b0 = 0xE0 then 0xA0 ≤ b1 && b1 ≤ 0xBF
         else if b0 = 0xED then 0x80 ≤ b1 && b1 ≤ 0x9F
         else isUtf8Cont b1) && isUtf8Cont b2 && validUtf8 rest3
      | _ => false
    else if 0xF0 ≤ b0 && b0 ≤ 0xF4 then
      match rest with
      | b1 :: b2 :: b3 :: rest4 =>
        (if b0 = 0xF0 then 0x90 ≤ b1 && b1 ≤ 0xBF
         else if b0 = 0xF4 then 0x80 ≤ b1 && b1 ≤ 0x8F
         else isUtf8Cont b1) && isUtf8Cont b2 && isUtf8Cont b3 && validUtf8 rest4
      | _ => false
    else false

/-- Rust `usize as c_int`: two's-complement truncation of a buffer length to
a signed 32-bit value, as performed by `data.len() as c_int`. -/
def usize_as_c_int (n : Nat) : Int :=
  if n % 2 ^ 32 < 2 ^ 31 then (n % 2 ^ 32 : Nat) else (n % 2 ^ 32 : Nat) - 2 ^ 32

/-- Rust `u32::from_be_bytes` on the 4 bytes read at offset 1 of the
file-read result buffer. -/
def u32_from_be_bytes (b : Bytes) : Nat :=
  match b with
  | [a, b1, c, d] => ((a * 256 + b1) * 256 + c) * 256 + d
  | _ => 0

/-- Wrapper `send_message` (lines 139-147). -/
def send_message (_native : Native) (message : Bytes) : FfiRun Unit :=
  match cstring_new message with
  | .error e => ⟨.error e, []⟩
  | .ok c_message => ⟨.ok (), [.sendMessage c_message]⟩

/-- Wrapper `migrate_init` (lines 149-169): three C-string conversions, then
the native open call returning the out-param control token and a result
pointer. -/
def migrate_init (native : Native) (path key confirm : Bytes) : FfiRun (Ptr × Ptr) :=
  match cstring_new path with
  | .error e => ⟨.error e, []⟩
  | .ok c_path =>
    match cstring_new key with
    | .error e => ⟨.error e, []⟩
    | .ok c_key =>
      match cstring_new confirm with
      | .error e => ⟨.error e, []⟩
      | .ok c_confirm =>
        ⟨.ok (native.chat_migrate_init c_path c_key c_confirm),
         [.chat_migrate_init c_path c_key c_confirm]⟩

/-- Wrapper `migrate_init_key` (lines 171-195); the two `bool` flags are
passed as C ints via `as c_int`. -/
def migrate_init_key (native : Native) (path key : Bytes) (keep_key : Bool)
    (confirm : Bytes) (background_mode : Bool) : FfiRun (Ptr × Ptr) :=
  match cstring_new path with
  | .error e => ⟨.error e, []⟩
  | .ok c_path =>
    match cstring_new key with
    | .error e => ⟨.error e, []⟩
    | .ok c_key =>
      match cstring_new confirm with
      | .error e => ⟨.error e, []⟩
      | .ok c_confirm =>
        ⟨.ok (native.chat_migrate_init_key c_path c_key (if keep_key then 1 else 0)
            c_confirm (if background_mode then 1 else 0)),
         [.chat_migrate_init_key c_path c_key (if keep_key then 1 else 0)
            c_confirm (if background_mode then 1 else 0)]⟩

/-- Wrapper `close_store` (lines 197-199): forwards the raw token, always `Ok`. -/
def close_store (native : Native) (ctrl : Ptr) : FfiRun Ptr :=
  ⟨.ok (native.chat_close_store ctrl), [.chat_close_store ctrl]⟩

/-- Wrapper `reopen_store` (lines 201-203). -/
def reopen_store (native : Native) (ctrl : Ptr) : FfiRun Ptr :=
  ⟨.ok (native.chat_reopen_store ctrl), [.chat_reopen_store ctrl]⟩

/-- Wrapper `send_cmd` (lines 205-208). -/
def send_cmd (native : Native) (ctrl : Ptr) (cmd : Bytes) : FfiRun Ptr :=
  match cstring_new cmd with
  | .error e => ⟨.error e, []⟩
  | .ok c_cmd => ⟨.ok (native.chat_send_cmd ctrl c_cmd), [.chat_send_cmd ctrl c_cmd]⟩

/-- Wrapper `send_remote_cmd` (lines 210-213). -/
def send_remote_cmd (native : Native) (ctrl : Ptr) (rh_id : Int) (cmd : Bytes) : FfiRun Ptr :=
  match cstring_new cmd with
  | .error e => ⟨.error e, []⟩
  | .ok c_cmd =>
    ⟨.ok (native.chat_send_remote_cmd ctrl rh_id c_cmd),
     [.chat_send_remote_cmd ctrl rh_id c_cmd]⟩

/-- Wrapper `recv_msg` (lines 215-217). -/
def recv_msg (native : Native) (ctrl : Ptr) : FfiRun Ptr :=
  ⟨.ok (native.chat_recv_msg ctrl), [.chat_recv_msg ctrl]⟩

/-- Wrapper `recv_msg_wait` (lines 219-221). -/
def recv_msg_wait (native : Native) (ctrl : Ptr) (wait : Int) : FfiRun Ptr :=
  ⟨.ok (native.chat_recv_msg_wait ctrl wait), [.chat_recv_msg_wait ctrl wait]⟩

/-- Wrapper `encrypt_media` (lines 223-234): the frame buffer crosses as a
(bytes, `data.len() as c_int`) pair. -/
def encrypt_media (native : Native) (ctrl : Ptr) (key data : Bytes) : FfiRun Ptr :=
  match cstring_new key with
  | .error e => ⟨.error e, []⟩
  | .ok c_key =>
    ⟨.ok (native.chat_encrypt_media ctrl c_key data (usize_as_c_int data.length)),
     [.chat_encrypt_media ctrl c_key data (usize_as_c_int data.length)]⟩

/-- Wrapper `decrypt_media` (lines 236-246). -/
def decrypt_media (native : Native) (key data : Bytes) : FfiRun Ptr :=
  match cstring_new key with
  | .error e => ⟨.error e, []⟩
  | .ok c_key =>
    ⟨.ok (native.chat_decrypt_media c_key data (usize_as_c_int data.length)),
     [.chat_decrypt_media c_key data (usize_as_c_int data.length)]⟩

/-- Wrapper `parse_markdown` (lines 248-251). -/
def parse_markdown (native : Native) (str : Bytes) : FfiRun Ptr :=
  match cstring_new str with
  | .error e => ⟨.error e, []⟩
  | .ok c_str => ⟨.ok (native.chat_parse_markdown c_str), [.chat_parse_markdown c_str]⟩

/-- Wrapper `parse_server` (lines 253-256). -/
def parse_server (native : Native) (str : Bytes) : FfiRun Ptr :=
  match cstring_new str with
  | .error e => ⟨.error e, []⟩
  | .ok c_str => ⟨.ok (native.chat_parse_server c_str), [.chat_parse_server c_str]⟩

/-- Wrapper `password_hash` (lines 258-262). -/
def password_hash (native : Native) (pwd salt : Bytes) : FfiRun Ptr :=
  match cstring_new pwd with
  | .error e => ⟨.error e, []⟩
  | .ok c_pwd =>
    match cstring_new salt with
    | .error e => ⟨.error e, []⟩
    | .ok c_salt =>
      ⟨.ok (native.chat_password_hash c_pwd c_salt), [.chat_password_hash c_pwd c_salt]⟩

/-- Wrapper `valid_name` (lines 264-267). -/
def valid_name (native : Native) (nm : Bytes) : FfiRun Ptr :=
  match cstring_new nm with
  | .error e => ⟨.error e, []⟩
  | .ok c_name => ⟨.ok (native.chat_valid_name c_name), [.chat_valid_name c_name]⟩

/-- Wrapper `json_length` (lines 269-273). -/
def json_length (native : Native) (str : Bytes) : FfiRun Int :=
  match cstring_new str with
  | .error e => ⟨.error e, []⟩
  | .ok c_str => ⟨.ok (native.chat_json_length c_str), [.chat_json_length c_str]⟩

/-- Wrapper `write_file` (lines 275-287): path marshaled as a C string, the
data buffer as a (bytes, `data.len() as c_int`) pair. -/
def write_file (native : Native) (ctrl : Ptr) (path data : Bytes) : FfiRun Ptr :=
  match cstring_new path with
  | .error e => ⟨.error e, []⟩
  | .ok c_path =>
    ⟨.ok (native.chat_write_file ctrl c_path data (usize_as_c_int data.length)),
     [.chat_write_file ctrl c_path data (usize_as_c_int data.length)]⟩

/-- Wrapper `read_file` (lines 289-320), the binary response decoder.  A null
result pointer yields `NullPointer`.  Otherwise byte 0 is the status (read
as an `i32`), bytes 1-4 a big-endian `u32` length `L`.  Status 0: the `L`
bytes at offset 5 are copied out.  Nonzero status: the 0-terminated byte
sequence starting at offset 1 is taken as the message (`CStr::from_ptr` at
offset 1), UTF-8 checked (`to_str`), and wrapped in `ChatError`.  The C side
carries no bounds, so out-of-range reads of the real code (undefined
behavior there) are totalized here by `List.take` / `List.takeWhile`. -/
def read_file (native : Native) (path key nonce : Bytes) : FfiRun (Int × Bytes) :=
  match cstring_new path with
  | .error e => ⟨.error e, []⟩
  | .ok c_path =>
    match cstring_new key with
    | .error e => ⟨.error e, []⟩
    | .ok c_key =>
      match cstring_new nonce with
      | .error e => ⟨.error e, []⟩
      | .ok c_nonce =>
        let trace := [NativeCall.chat_read_file c_path c_key c_nonce]
        match native.chat_read_file c_path c_key c_nonce with
        | none => ⟨.error .NullPointer, trace⟩
        | some bytes =>
          let status : Int := (bytes.headD 0 : Nat)
          let len := u32_from_be_bytes ((bytes.drop 1).take 4)
          if status = 0 then
            ⟨.ok (status, (bytes.drop 5).take len), trace⟩
          else
            let msg := (bytes.drop 1).takeWhile (fun b => b != 0)
            if validUtf8 msg then ⟨.error (.ChatError msg), trace⟩
            else ⟨.error .Utf8Error, trace⟩

/-- Wrapper `encrypt_file` (lines 322-332). -/
def encrypt_file (native : Native) (ctrl : Ptr) (from_path to_path : Bytes) : FfiRun Ptr :=
  match cstring_new from_path with
  | .error e => ⟨.error e, []⟩
  | .ok c_from_path =>
    match cstring_new to_path with
    | .error e => ⟨.error e, []⟩
    | .ok c_to_path =>
      ⟨.ok (native.chat_encrypt_file ctrl c_from_path c_to_path),
       [.chat_encrypt_file ctrl c_from_path c_to_path]⟩

/-- Wrapper `decrypt_file` (lines 334-354). -/
def decrypt_file (native : Native) (from_path key nonce to_path : Bytes) : FfiRun Ptr :=
  match cstring_new from_path with
  | .error e => ⟨.error e, []⟩
  | .ok c_from_path =>
    match cstring_new key with
    | .error e => ⟨.error e, []⟩
    | .ok c_key =>
      match cstring_new nonce with
      | .error e => ⟨.error e, []⟩
      | .ok c_nonce =>
        match cstring_new to_path with
        | .error e => ⟨.error e, []⟩
        | .ok c_to_path =>
          ⟨.ok (native.chat_decrypt_file c_from_path c_key c_nonce c_to_path),
           [.chat_decrypt_file c_from_path c_key c_nonce c_to_path]⟩

/-- Process-wide lifecycle state backing `static START: Once` (line 130):
whether the `call_once` closure has completed, and how many times each
native bootstrap side effect (`hs_init`, `initChatClient`) has run. -/
structure ProcState where
  onceDone : Bool
  hsInitCount : Nat
  initChatClientCount : Nat
  deriving DecidableEq

/-- The fresh process state: `Once` not yet fired, no bootstrap run. -/
def initState : ProcState := ⟨false, 0, 0⟩

/-- The wrapper function at lines 132-137 (its source name is a Lean keyword,
hence the name `initOnce` here): `START.call_once` runs the closure calling
`hs_init` and `initChatClient` if and only if it has not completed before,
per the contract of `std::sync::Once`. -/
def initOnce (s : ProcState) : ProcState :=
  if s.onceDone then s
  else ⟨true, s.hsInitCount + 1, s.initChatClientCount + 1⟩

/-- Sequential composition of `n` calls to `initOnce`, the step relation
iterated from a given state. -/
def run_inits : Nat → ProcState → ProcState
  | 0, s => s
  | n + 1, s => run_inits n (initOnce s)

/-- A concrete instantiation of the opaque native library, used to evaluate
the wrapper on explicit inputs: every call returns the null address and the
file-read call returns a null result pointer. -/
def trivNative : Native where
  chat_migrate_init := fun _ _ _ => (0, 0)
  chat_migrate_init_key := fun _ _ _ _ _ => (0, 0)
  chat_close_store := fun _ => 0
  chat_reopen_store := fun _ => 0
  chat_send_cmd := fun _ _ => 0
  chat_send_remote_cmd := fun _ _ _ => 0
  chat_recv_msg := fun _ => 0
  chat_recv_msg_wait := fun _ _ => 0
  chat_parse_markdown := fun _ => 0
  chat_parse_server := fun _ => 0
  chat_password_hash := fun _ _ => 0
  chat_valid_name := fun _ => 0
  chat_json_length := fun _ => 0
  chat_write_file := fun _ _ _ _ => 0
  chat_read_file := fun _ _ _ => none
  chat_encrypt_file := fun _ _ _ => 0
  chat_decrypt_file := fun _ _ _ _ => 0
  chat_encrypt_media := fun _ _ _ _ => 0
  chat_decrypt_media := fun _ _ _ => 0

/-- A native library whose file-read call hands back a fixed result buffer,
used to drive the binary response decoder on concrete layouts. -/
def constReadNative (buf : Bytes) : Native :=
  { trivNative with chat_read_file := fun _ _ _ => some buf }

/-- The error-message extraction asserted by the spec sentence behind claim
C3, stated in the spec's own words: the bytes strictly between the 4-byte
length field (bytes 1-4) and the terminator, i.e. starting at offset 5.
This is a spec-side reading to be compared with `read_file`, which starts
the message at offset 1. -/
def claimedErrMsg (bytes : Bytes) : Bytes :=
  (bytes.drop 5).takeWhile (fun b => b != 0)

lemma cstring_new_ok (s : Bytes) (h : 0 ∉ s) : cstring_new s = .ok (s ++ [0]) := by
  simp [cstring_new, h]

lemma takeWhile_ne_zero_append (msg tail : Bytes) (h : 0 ∉ msg) :
    (msg ++ 0 :: tail).takeWhile (fun b => b != 0) = msg := by
  induction msg with
  | nil => simp [List.takeWhile]
  | cons a as ih =>
    rw [List.mem_cons, not_or] at h
    simp only [List.cons_append, List.takeWhile_cons]
    have ha : (a != 0) = true := by
      simp [bne_iff_ne]
      exact fun hc => h.1 hc.symm
    rw [ha]
    simp [ih h.2]

lemma read_file_error_general (native : Native) (path key nonce : Bytes)
    (hp : 0 ∉ path) (hk : 0 ∉ key) (hn : 0 ∉ nonce)
    (s : Nat) (hs0 : s ≠ 0) (msg tail : Bytes) (hm : 0 ∉ msg)
    (hres : native.chat_read_file (path ++ [0]) (key ++ [0]) (nonce ++ [0]) =
      some (s :: (msg ++ 0 :: tail))) :
    (read_file native path key nonce).result =
      if validUtf8 msg then .error (.ChatError msg) else .error .Utf8Error := by
  simp only [read_file, cstring_new_ok _ hp, cstring_new_ok _ hk, cstring_new_ok _ hn, hres]
  have hstatus : ((s : Nat) : Int) ≠ 0 := by
    simpa using hs0
  simp only [List.headD, hstatus, if_false, List.drop_one, List.tail_cons,
    takeWhile_ne_zero_append msg tail hm, if_neg hstatus]
  split <;> rfl

end Ffi

namespace Ffi

/-- C1: a non-null file-read result buffer of shape
`[0x00][L as 4 big-endian bytes][L payload bytes]` decodes to success with
status 0 and a payload byte-for-byte equal to those `L` bytes (all lengths
`L`, in particular 0, 1 and 4096). -/
theorem read_file_success_payload (native : Native) (path key nonce : Bytes)
    (hp : 0 ∉ path) (hk : 0 ∉ key) (hn : 0 ∉ nonce)
    (b1 b2 b3 b4 : Nat) (hb1 : b1 < 256) (hb2 : b2 < 256) (hb3 : b3 < 256) (hb4 : b4 < 256)
    (payload : Bytes)
    (hres : native.chat_read_file (path ++ [0]) (key ++ [0]) (nonce ++ [0]) =
      some (0 :: b1 :: b2 :: b3 :: b4 :: payload))
    (hlen : payload.length = u32_from_be_bytes [b1, b2, b3, b4]) :
    (read_file native path key nonce).result = .ok (0, payload) := by
  simp only [read_file, cstring_new_ok _ hp, cstring_new_ok _ hk, cstring_new_ok _ hn, hres]
  simp [List.headD, u32_from_be_bytes]
  exact le_of_eq hlen

/-- Witness for C1 at the concrete buffer `[0, 0,0,0,1, 97]` (status 0,
length 1, payload byte 97). -/
theorem read_file_success_payload_witness :
    (read_file (constReadNative [0, 0, 0, 0, 1, 97]) [112] [107] [110]).result =
      .ok (0, [97]) :=
  read_file_success_payload (constReadNative [0, 0, 0, 0, 1, 97]) [112] [107] [110]
    (by decide) (by decide) (by decide) 0 0 0 1 (by decide) (by decide) (by decide) (by decide)
    [97] rfl (by decide)

/-- C2: a non-null file-read result buffer with nonzero status byte decodes
to `ChatError` carrying exactly the 0-terminated byte sequence starting at
byte 1 — not bounded by the length field, whose bytes are simply part of
that sequence — when those bytes are valid UTF-8, and to `Utf8Error` when
they are not. -/
theorem read_file_error_branch (native : Native) (path key nonce : Bytes)
    (hp : 0 ∉ path) (hk : 0 ∉ key) (hn : 0 ∉ nonce)
    (s : Nat) (hs0 : s ≠ 0) (hs : s < 256) (msg tail : Bytes) (hm : 0 ∉ msg)
    (hres : native.chat_read_file (path ++ [0]) (key ++ [0]) (nonce ++ [0]) =
      some (s :: (msg ++ 0 :: tail))) :
    (read_file native path key nonce).result =
      if validUtf8 msg then .error (.ChatError msg) else .error .Utf8Error :=
  read_file_error_general native path key nonce hp hk hn s hs0 msg tail hm hres

/-- Witness for C2: buffer `[1, 104, 105, 0]` yields `ChatError "hi"`, and
buffer `[1, 255, 0]` (lone continuation byte 0xFF) yields `Utf8Error`. -/
theorem read_file_error_branch_witness :
    (read_file (constReadNative [1, 104, 105, 0]) [112] [107] [110]).result =
      .error (.ChatError [104, 105]) ∧
    (read_file (constReadNative [1, 255, 0]) [112] [107] [110]).result =
      .error .Utf8Error := by
  constructor
  · rw [read_file_error_branch (constReadNative [1, 104, 105, 0]) [112] [107] [110]
      (by decide) (by decide) (by decide) 1 (by decide) (by decide) [104, 105] []
      (by decide) rfl]
    rfl
  · rw [read_file_error_branch (constReadNative [1, 255, 0]) [112] [107] [110]
      (by decide) (by decide) (by decide) 1 (by decide) (by decide) [255] []
      (by decide) rfl]
    rfl

/-- C3 counterexample: for the buffer `[1, 65, 66, 67, 68, 72, 0, 33]`
(nonzero status, length field "ABCD", byte 72, terminator, text "!") the
decoder returns `ChatError "ABCDH"` — the message starts at byte 1 and
includes the length-field bytes — whereas the claim's reading
(`claimedErrMsg`, the bytes strictly between bytes 1-4 and the terminator)
predicts `"H"`, a different message. -/
theorem read_file_error_msg_counterexample :
    (read_file (constReadNative [1, 65, 66, 67, 68, 72, 0, 33]) [112] [107] [110]).result =
      .error (.ChatError [65, 66, 67, 68, 72]) ∧
    claimedErrMsg [1, 65, 66, 67, 68, 72, 0, 33] = [72] ∧
    (([65, 66, 67, 68, 72] : Bytes) == [72]) = false :=
  ⟨rfl, rfl, rfl⟩

/-- C3 amended: for a buffer `[status != 0][arbitrary bytes][terminator][text]`
whose arbitrary bytes are valid UTF-8, the decoder returns `ChatError` with
message equal to all bytes strictly between the status byte (byte 0) and the
terminator — beginning at byte 1, so including the length-field bytes —
independent of the value stored in the length field. -/
theorem read_file_error_msg_from_byte1 (native : Native) (path key nonce : Bytes)
    (hp : 0 ∉ path) (hk : 0 ∉ key) (hn : 0 ∉ nonce)
    (s : Nat) (hs0 : s ≠ 0) (hs : s < 256) (arb text : Bytes) (ha : 0 ∉ arb)
    (hu : validUtf8 arb = true)
    (hres : native.chat_read_file (path ++ [0]) (key ++ [0]) (nonce ++ [0]) =
      some (s :: (arb ++ 0 :: text))) :
    (read_file native path key nonce).result = .error (.ChatError arb) := by
  rw [read_file_error_general native path key nonce hp hk hn s hs0 arb text ha hres, hu]
  rfl

/-- Witness for the amended C3: buffer `[9, 1, 2, 3, 4, 72, 0, 33]` with
length field `[1, 2, 3, 4]` decodes to the message `[1, 2, 3, 4, 72]`. -/
theorem read_file_error_msg_from_byte1_witness :
    (read_file (constReadNative [9, 1, 2, 3, 4, 72, 0, 33]) [112] [107] [110]).result =
      .error (.ChatError [1, 2, 3, 4, 72]) :=
  read_file_error_msg_from_byte1 (constReadNative [9, 1, 2, 3, 4, 72, 0, 33])
    [112] [107] [110] (by decide) (by decide) (by decide) 9 (by decide) (by decide)
    [1, 2, 3, 4, 72] [33] (by decide) (by decide) rfl

/-- An operation run that failed local validation: it produced
`InvalidString` and performed no native call at all. -/
def failsInvalid {α : Type} (r : FfiRun α) : Prop :=
  r.result = .error .InvalidString ∧ r.calls = []

lemma send_message_nul (native : Native) (s : Bytes) (h : 0 ∈ s) :
    failsInvalid (send_message native s) := by
  simp [failsInvalid, send_message, cstring_new, h]

lemma migrate_init_nul (native : Native) (s t u : Bytes) (h : 0 ∈ s ∨ 0 ∈ t ∨ 0 ∈ u) :
    failsInvalid (migrate_init native s t u) := by
  by_cases hs : 0 ∈ s
  · simp [failsInvalid, migrate_init, cstring_new, hs]
  · by_cases ht : 0 ∈ t
    · simp [failsInvalid, migrate_init, cstring_new, hs, ht]
    · have hu : 0 ∈ u := by tauto
      simp [failsInvalid, migrate_init, cstring_new, hs, ht, hu]

lemma migrate_init_key_nul (native : Native) (s t : Bytes) (kk : Bool) (u : Bytes)
    (bg : Bool) (h : 0 ∈ s ∨ 0 ∈ t ∨ 0 ∈ u) :
    failsInvalid (migrate_init_key native s t kk u bg) := by
  by_cases hs : 0 ∈ s
  · simp [failsInvalid, migrate_init_key, cstring_new, hs]
  · by_cases ht : 0 ∈ t
    · simp [failsInvalid, migrate_init_key, cstring_new, hs, ht]
    · have hu : 0 ∈ u := by tauto
      simp [failsInvalid, migrate_init_key, cstring_new, hs, ht, hu]

lemma send_cmd_nul (native : Native) (ctrl : Ptr) (s : Bytes) (h : 0 ∈ s) :
    failsInvalid (send_cmd native ctrl s) := by
  simp [failsInvalid, send_cmd, cstring_new, h]

lemma send_remote_cmd_nul (native : Native) (ctrl : Ptr) (rh_id : Int) (s : Bytes)
    (h : 0 ∈ s) : failsInvalid (send_remote_cmd native ctrl rh_id s) := by
  simp [failsInvalid, send_remote_cmd, cstring_new, h]

lemma encrypt_media_nul (native : Native) (ctrl : Ptr) (s data : Bytes) (h : 0 ∈ s) :
    failsInvalid (encrypt_media native ctrl s data) := by
  simp [failsInvalid, encrypt_media, cstring_new, h]

lemma decrypt_media_nul (native : Native) (s data : Bytes) (h : 0 ∈ s) :
    failsInvalid (decrypt_media native s data) := by
  simp [failsInvalid, decrypt_media, cstring_new, h]

lemma parse_markdown_nul (native : Native) (s : Bytes) (h : 0 ∈ s) :
    failsInvalid (parse_markdown native s) := by
  simp [failsInvalid, parse_markdown, cstring_new, h]

lemma parse_server_nul (native : Native) (s : Bytes) (h : 0 ∈ s) :
    failsInvalid (parse_server native s) := by
  simp [failsInvalid, parse_server, cstring_new, h]

lemma password_hash_nul (native : Native) (s t : Bytes) (h : 0 ∈ s ∨ 0 ∈ t) :
    failsInvalid (password_hash native s t) := by
  by_cases hs : 0 ∈ s
  · simp [failsInvalid, password_hash, cstring_new, hs]
  · have ht : 0 ∈ t := by tauto
    simp [failsInvalid, password_hash, cstring_new, hs, ht]

lemma valid_name_nul (native : Native) (s : Bytes) (h : 0 ∈ s) :
    failsInvalid (valid_name native s) := by
  simp [failsInvalid, valid_name, cstring_new, h]

lemma json_length_nul (native : Native) (s : Bytes) (h : 0 ∈ s) :
    failsInvalid (json_length native s) := by
  simp [failsInvalid, json_length, cstring_new, h]

lemma write_file_nul (native : Native) (ctrl : Ptr) (s data : Bytes) (h : 0 ∈ s) :
    failsInvalid (write_file native ctrl s data) := by
  simp [failsInvalid, write_file, cstring_new, h]

lemma read_file_nul (native : Native) (s t u : Bytes) (h : 0 ∈ s ∨ 0 ∈ t ∨ 0 ∈ u) :
    failsInvalid (read_file native s t u) := by
  by_cases hs : 0 ∈ s
  · simp [failsInvalid, read_file, cstring_new, hs]
  · by_cases ht : 0 ∈ t
    · simp [failsInvalid, read_file, cstring_new, hs, ht]
    · have hu : 0 ∈ u := by tauto
      simp [failsInvalid, read_file, cstring_new, hs, ht, hu]

lemma encrypt_file_nul (native : Native) (ctrl : Ptr) (s t : Bytes)
    (h : 0 ∈ s ∨ 0 ∈ t) : failsInvalid (encrypt_file native ctrl s t) := by
  by_cases hs : 0 ∈ s
  · simp [failsInvalid, encrypt_file, cstring_new, hs]
  · have ht : 0 ∈ t := by tauto
    simp [failsInvalid, encrypt_file, cstring_new, hs, ht]

lemma decrypt_file_nul (native : Native) (s t u v : Bytes)
    (h : 0 ∈ s ∨ 0 ∈ t ∨ 0 ∈ u ∨ 0 ∈ v) : failsInvalid (decrypt_file native s t u v) := by
  by_cases hs : 0 ∈ s
  · simp [failsInvalid, decrypt_file, cstring_new, hs]
  · by_cases ht : 0 ∈ t
    · simp [failsInvalid, decrypt_file, cstring_new, hs, ht]
    · by_cases hu : 0 ∈ u
      · simp [failsInvalid, decrypt_file, cstring_new, hs, ht, hu]
      · have hv : 0 ∈ v := by tauto
        simp [failsInvalid, decrypt_file, cstring_new, hs, ht, hu, hv]

/-- C4: for every string-taking operation, a string argument with an embedded
NUL byte makes the operation return `InvalidString` with no native call
performed, and NUL-free strings always convert successfully to their
0-terminated native form. -/
theorem marshaling_nul_validation (native : Native) (ctrl : Ptr) (rh_id : Int)
    (kk bg : Bool) (s t u v data : Bytes) :
    (0 ∉ s → cstring_new s = .ok (s ++ [0])) ∧
    (0 ∈ s → failsInvalid (send_message native s)) ∧
    ((0 ∈ s ∨ 0 ∈ t ∨ 0 ∈ u) → failsInvalid (migrate_init native s t u)) ∧
    ((0 ∈ s ∨ 0 ∈ t ∨ 0 ∈ u) → failsInvalid (migrate_init_key native s t kk u bg)) ∧
    (0 ∈ s → failsInvalid (send_cmd native ctrl s)) ∧
    (0 ∈ s → failsInvalid (send_remote_cmd native ctrl rh_id s)) ∧
    (0 ∈ s → failsInvalid (encrypt_media native ctrl s data)) ∧
    (0 ∈ s → failsInvalid (decrypt_media native s data)) ∧
    (0 ∈ s → failsInvalid (parse_markdown native s)) ∧
    (0 ∈ s → failsInvalid (parse_server native s)) ∧
    ((0 ∈ s ∨ 0 ∈ t) → failsInvalid (password_hash native s t)) ∧
    (0 ∈ s → failsInvalid (valid_name native s)) ∧
    (0 ∈ s → failsInvalid (json_length native s)) ∧
    (0 ∈ s → failsInvalid (write_file native ctrl s data)) ∧
    ((0 ∈ s ∨ 0 ∈ t ∨ 0 ∈ u) → failsInvalid (read_file native s t u)) ∧
    ((0 ∈ s ∨ 0 ∈ t) → failsInvalid (encrypt_file native ctrl s t)) ∧
    ((0 ∈ s ∨ 0 ∈ t ∨ 0 ∈ u ∨ 0 ∈ v) → failsInvalid (decrypt_file native s t u v)) :=
  ⟨cstring_new_ok s,
   send_message_nul native s,
   migrate_init_nul native s t u,
   migrate_init_key_nul native s t kk u bg,
   send_cmd_nul native ctrl s,
   send_remote_cmd_nul native ctrl rh_id s,
   encrypt_media_nul native ctrl s data,
   decrypt_media_nul native s data,
   parse_markdown_nul native s,
   parse_server_nul native s,
   password_hash_nul native s t,
   valid_name_nul native s,
   json_length_nul native s,
   write_file_nul native ctrl s data,
   read_file_nul native s t u,
   encrypt_file_nul native ctrl s t,
   decrypt_file_nul native s t u v⟩

/-- Witness for C4: the NUL-free string `[99]` converts to `[99, 0]`; the
string `[98, 0, 99]` with an embedded NUL makes `send_cmd` (NUL in its only
string), `migrate_init` (NUL in the second of three strings) and
`decrypt_file` (NUL in the last of four strings) fail with `InvalidString`
and an empty native-call trace. -/
theorem marshaling_nul_validation_witness :
    cstring_new [99] = .ok [99, 0] ∧
    (send_cmd trivNative 7 [98, 0, 99]).result = .error .InvalidString ∧
    (send_cmd trivNative 7 [98, 0, 99]).calls = [] ∧
    (migrate_init trivNative [99] [98, 0, 99] [99]).result = .error .InvalidString ∧
    (migrate_init trivNative [99] [98, 0, 99] [99]).calls = [] ∧
    (decrypt_file trivNative [99] [99] [99] [98, 0, 99]).result = .error .InvalidString ∧
    (decrypt_file trivNative [99] [99] [99] [98, 0, 99]).calls = [] := by
  have hOk := (marshaling_nul_validation trivNative 7 0 false false [99] [99] [99]
    [98, 0, 99] []).1
  have hBad := marshaling_nul_validation trivNative 7 0 false false [98, 0, 99] [99] [99]
    [99] []
  have hMid := marshaling_nul_validation trivNative 7 0 false false [99] [98, 0, 99] [99]
    [99] []
  have hLast := marshaling_nul_validation trivNative 7 0 false false [99] [99] [99]
    [98, 0, 99] []
  refine ⟨hOk (by decide), ?_, ?_, ?_, ?_, ?_, ?_⟩
  · exact (hBad.2.2.2.2.1 (by decide)).1
  · exact (hBad.2.2.2.2.1 (by decide)).2
  · exact (hMid.2.2.1 (by decide)).1
  · exact (hMid.2.2.1 (by decide)).2
  · exact (hLast.2.2.2.2.2.2.2.2.2.2.2.2.2.2.2.2 (by decide)).1
  · exact (hLast.2.2.2.2.2.2.2.2.2.2.2.2.2.2.2.2 (by decide)).2

/-- C5 counterexample: close does not invalidate the token at this layer.
After `close_store` succeeds on token 7, both `send_cmd` and `recv_msg` can
still be invoked with token 7: each performs its native call and returns
success, rather than being impossible or yielding an immediate error. -/
theorem use_after_close_counterexample :
    (close_store trivNative 7).result = .ok 0 ∧
    (send_cmd trivNative 7 [120]).result = .ok 0 ∧
    (send_cmd trivNative 7 [120]).calls = [.chat_send_cmd 7 [120, 0]] ∧
    (recv_msg trivNative 7).result = .ok 0 ∧
    (recv_msg trivNative 7).calls = [.chat_recv_msg 7] :=
  ⟨rfl, rfl, rfl, rfl, rfl⟩

/-- C5 amended: `close_store` performs no local invalidation of the session
token — it is a plain raw value, carried unchanged — so each subsequent
operation of the original claim's list (`send_cmd`, `send_remote_cmd`,
`recv_msg`, `recv_msg_wait`, `write_file`, `encrypt_media`, `encrypt_file`,
`reopen_store` and `close_store` itself) invoked with the same token still
performs its native call with that token and returns success from this
layer, provided its string arguments pass NUL validation; avoiding
use-after-close is the caller's responsibility. -/
theorem close_store_no_invalidation (native : Native) (ctrl : Ptr) (rh_id wait : Int)
    (cmd path key from_p to_p data : Bytes)
    (hc : 0 ∉ cmd) (hp : 0 ∉ path) (hk : 0 ∉ key) (hf : 0 ∉ from_p) (ht : 0 ∉ to_p) :
    (close_store native ctrl).result = .ok (native.chat_close_store ctrl) ∧
    (close_store native ctrl).calls = [.chat_close_store ctrl] ∧
    (send_cmd native ctrl cmd).result = .ok (native.chat_send_cmd ctrl (cmd ++ [0])) ∧
    (send_cmd native ctrl cmd).calls = [.chat_send_cmd ctrl (cmd ++ [0])] ∧
    (send_remote_cmd native ctrl rh_id cmd).result =
      .ok (native.chat_send_remote_cmd ctrl rh_id (cmd ++ [0])) ∧
    (send_remote_cmd native ctrl rh_id cmd).calls =
      [.chat_send_remote_cmd ctrl rh_id (cmd ++ [0])] ∧
    (recv_msg native ctrl).result = .ok (native.chat_recv_msg ctrl) ∧
    (recv_msg native ctrl).calls = [.chat_recv_msg ctrl] ∧
    (recv_msg_wait native ctrl wait).result = .ok (native.chat_recv_msg_wait ctrl wait) ∧
    (recv_msg_wait native ctrl wait).calls = [.chat_recv_msg_wait ctrl wait] ∧
    (write_file native ctrl path data).result =
      .ok (native.chat_write_file ctrl (path ++ [0]) data (usize_as_c_int data.length)) ∧
    (write_file native ctrl path data).calls =
      [.chat_write_file ctrl (path ++ [0]) data (usize_as_c_int data.length)] ∧
    (encrypt_media native ctrl key data).result =
      .ok (native.chat_encrypt_media ctrl (key ++ [0]) data (usize_as_c_int data.length)) ∧
    (encrypt_media native ctrl key data).calls =
      [.chat_encrypt_media ctrl (key ++ [0]) data (usize_as_c_int data.length)] ∧
    (encrypt_file native ctrl from_p to_p).result =
      .ok (native.chat_encrypt_file ctrl (from_p ++ [0]) (to_p ++ [0])) ∧
    (encrypt_file native ctrl from_p to_p).calls =
      [.chat_encrypt_file ctrl (from_p ++ [0]) (to_p ++ [0])] ∧
    (reopen_store native ctrl).result = .ok (native.chat_reopen_store ctrl) ∧
    (reopen_store native ctrl).calls = [.chat_reopen_store ctrl] := by
  refine ⟨rfl, rfl, ?_, ?_, ?_, ?_, rfl, rfl, rfl, rfl, ?_, ?_, ?_, ?_, ?_, ?_, rfl, rfl⟩ <;>
    simp [send_cmd, send_remote_cmd, write_file, encrypt_media, encrypt_file,
      cstring_new_ok _ hc, cstring_new_ok _ hp, cstring_new_ok _ hk,
      cstring_new_ok _ hf, cstring_new_ok _ ht]

/-- Witness for the amended C5 at token 7: after close, a remote command, a
file write, a media encryption and a file encryption with token 7 all still
perform their native calls and succeed. -/
theorem close_store_no_invalidation_witness :
    (close_store trivNative 7).result = .ok 0 ∧
    (send_remote_cmd trivNative 7 3 [120]).result = .ok 0 ∧
    (send_remote_cmd trivNative 7 3 [120]).calls = [.chat_send_remote_cmd 7 3 [120, 0]] ∧
    (write_file trivNative 7 [112] [9]).calls = [.chat_write_file 7 [112, 0] [9] 1] ∧
    (encrypt_media trivNative 7 [107] [9]).calls = [.chat_encrypt_media 7 [107, 0] [9] 1] ∧
    (encrypt_file trivNative 7 [102] [116]).calls = [.chat_encrypt_file 7 [102, 0] [116, 0]] := by
  have h := close_store_no_invalidation trivNative 7 3 5 [120] [112] [107] [102] [116] [9]
    (by decide) (by decide) (by decide) (by decide) (by decide)
  exact ⟨h.1, h.2.2.2.2.1, h.2.2.2.2.2.1, h.2.2.2.2.2.2.2.2.2.2.2.1,
    h.2.2.2.2.2.2.2.2.2.2.2.2.2.1, h.2.2.2.2.2.2.2.2.2.2.2.2.2.2.2.1⟩

lemma initOnce_done (s : ProcState) (h : s.onceDone = true) : initOnce s = s := by
  simp [initOnce, h]

lemma run_inits_done (n : Nat) (s : ProcState) (h : s.onceDone = true) :
    run_inits n s = s := by
  induction n with
  | zero => rfl
  | succ k ih => simpa [run_inits, initOnce_done s h] using ih

/-- C6: in any sequence of one or more calls to the initializer, `hs_init`
and `initChatClient` run exactly once — on the first call — and every later
call leaves the state untouched. -/
theorem initOnce_exactly_once (n : Nat) :
    run_inits (n + 1) initState = ⟨true, 1, 1⟩ := by
  show run_inits n (initOnce initState) = _
  have h1 : initOnce initState = ⟨true, 1, 1⟩ := rfl
  rw [h1]
  exact run_inits_done n ⟨true, 1, 1⟩ rfl

/-- C7: whenever the native file-read call returns a null result pointer,
`read_file` returns `NullPointer`, for every path, key and nonce passing
string validation. -/
theorem read_file_null_pointer (native : Native) (path key nonce : Bytes)
    (hp : 0 ∉ path) (hk : 0 ∉ key) (hn : 0 ∉ nonce)
    (hres : native.chat_read_file (path ++ [0]) (key ++ [0]) (nonce ++ [0]) = none) :
    (read_file native path key nonce).result = .error .NullPointer := by
  simp [read_file, cstring_new_ok _ hp, cstring_new_ok _ hk, cstring_new_ok _ hn, hres]

/-- Witness for C7: the native instantiation whose file-read returns null. -/
theorem read_file_null_pointer_witness :
    (read_file trivNative [112] [107] [110]).result = .error .NullPointer :=
  read_file_null_pointer trivNative [112] [107] [110]
    (by decide) (by decide) (by decide) rfl

lemma usize_as_c_int_small (n : Nat) (h : n < 2 ^ 31) : usize_as_c_int n = n := by
  have h32 : n < 2 ^ 32 := lt_trans h (by norm_num)
  rw [usize_as_c_int, Nat.mod_eq_of_lt h32, if_pos h]

lemma usize_as_c_int_wrap : usize_as_c_int (2 ^ 31) = -(2 ^ 31) := by
  have h : (2 ^ 31 : Nat) % 2 ^ 32 = 2 ^ 31 := Nat.mod_eq_of_lt (by norm_num)
  rw [usize_as_c_int, h]
  norm_num

lemma write_file_calls (native : Native) (ctrl : Ptr) (path data : Bytes) (hp : 0 ∉ path) :
    (write_file native ctrl path data).calls =
      [.chat_write_file ctrl (path ++ [0]) data (usize_as_c_int data.length)] := by
  simp [write_file, cstring_new_ok _ hp]

/-- C8 counterexample: for a buffer of 2^31 bytes, `write_file` hands the
native side the length `-(2^31)` (the `usize` length truncated through
`as c_int`), which differs from the buffer's exact size 2^31, refuting the
claim's "for buffers of any size". -/
theorem buffer_length_cast_counterexample :
    (write_file trivNative 0 [112] (List.replicate (2 ^ 31) 0)).calls =
      [.chat_write_file 0 [112, 0] (List.replicate (2 ^ 31) 0) (-(2 ^ 31) : Int)] ∧
    (List.replicate (2 ^ 31) (0 : Nat)).length = 2 ^ 31 ∧
    (((-(2 ^ 31) : Int)) == (2 ^ 31 : Int)) = false := by
  refine ⟨?_, List.length_replicate _ _, by decide⟩
  rw [write_file_calls trivNative 0 [112] _ (by decide), List.length_replicate,
    usize_as_c_int_wrap]
  rfl

/-- C8 amended: for every byte buffer of fewer than 2^31 bytes, the length
handed to the native function by `write_file`, `encrypt_media` and
`decrypt_media` equals the buffer's exact size (the quantification over the
buffer's contents shows the length is never inferred from them); for larger
buffers the `as c_int` conversion wraps the value. -/
theorem buffer_length_exact (native : Native) (ctrl : Ptr) (path key data : Bytes)
    (hp : 0 ∉ path) (hk : 0 ∉ key) (hd : data.length < 2 ^ 31) :
    (write_file native ctrl path data).calls =
      [.chat_write_file ctrl (path ++ [0]) data (data.length : Int)] ∧
    (encrypt_media native ctrl key data).calls =
      [.chat_encrypt_media ctrl (key ++ [0]) data (data.length : Int)] ∧
    (decrypt_media native key data).calls =
      [.chat_decrypt_media (key ++ [0]) data (data.length : Int)] := by
  refine ⟨?_, ?_, ?_⟩ <;>
    simp [write_file, encrypt_media, decrypt_media, cstring_new_ok _ hp,
      cstring_new_ok _ hk, usize_as_c_int_small _ hd]

/-- Witness for the amended C8 at a 3-byte buffer. -/
theorem buffer_length_exact_witness :
    (write_file trivNative 0 [112] [10, 20, 30]).calls =
      [.chat_write_file 0 [112, 0] [10, 20, 30] 3] ∧
    (encrypt_media trivNative 0 [107] [10, 20, 30]).calls =
      [.chat_encrypt_media 0 [107, 0] [10, 20, 30] 3] ∧
    (decrypt_media trivNative [107] [10, 20, 30]).calls =
      [.chat_decrypt_media [107, 0] [10, 20, 30] 3] :=
  buffer_length_exact trivNative 0 [112] [107] [10, 20, 30]
    (by decide) (by decide) (by decide)

/-- C9: the token-only operations always return a success value, for every
native behavior and every token — the null token 0 included — and never any
error variant: each is literally `Ok` around the native call's return. -/
theorem token_ops_always_ok (native : Native) (ctrl : Ptr) (wait : Int) :
    (close_store native ctrl).result = .ok (native.chat_close_store ctrl) ∧
    (reopen_store native ctrl).result = .ok (native.chat_reopen_store ctrl) ∧
    (recv_msg native ctrl).result = .ok (native.chat_recv_msg ctrl) ∧
    (recv_msg_wait native ctrl wait).result = .ok (native.chat_recv_msg_wait ctrl wait) ∧
    (close_store native 0).result = .ok (native.chat_close_store 0) ∧
    (reopen_store native 0).result = .ok (native.chat_reopen_store 0) ∧
    (recv_msg native 0).result = .ok (native.chat_recv_msg 0) ∧
    (recv_msg_wait native 0 wait).result = .ok (native.chat_recv_msg_wait 0 wait) :=
  ⟨rfl, rfl, rfl, rfl, rfl, rfl, rfl, rfl⟩

/-- Test for the `IoError` variant of a result. -/
def isIoError {α : Type} : Except Error α → Bool
  | .error .IoError => true
  | _ => false

lemma cstring_new_cases (s : Bytes) :
    cstring_new s = .error .InvalidString ∨ cstring_new s = .ok (s ++ [0]) := by
  by_cases h : 0 ∈ s <;> simp [cstring_new, h]

lemma send_message_not_io (native : Native) (s : Bytes) :
    isIoError (send_message native s).result = false := by
  rcases cstring_new_cases s with h | h <;> simp [send_message, h, isIoError]

lemma migrate_init_not_io (native : Native) (s t u : Bytes) :
    isIoError (migrate_init native s t u).result = false := by
  rcases cstring_new_cases s with h1 | h1 <;>
    rcases cstring_new_cases t with h2 | h2 <;>
      rcases cstring_new_cases u with h3 | h3 <;>
        simp [migrate_init, h1, h2, h3, isIoError]

lemma migrate_init_key_not_io (native : Native) (s t : Bytes) (kk : Bool) (u : Bytes)
    (bg : Bool) : isIoError (migrate_init_key native s t kk u bg).result = false := by
  rcases cstring_new_cases s with h1 | h1 <;>
    rcases cstring_new_cases t with h2 | h2 <;>
      rcases cstring_new_cases u with h3 | h3 <;>
        simp [migrate_init_key, h1, h2, h3, isIoError]

lemma send_cmd_not_io (native : Native) (ctrl : Ptr) (s : Bytes) :
    isIoError (send_cmd native ctrl s).result = false := by
  rcases cstring_new_cases s with h | h <;> simp [send_cmd, h, isIoError]

lemma send_remote_cmd_not_io (native : Native) (ctrl : Ptr) (rh_id : Int) (s : Bytes) :
    isIoError (send_remote_cmd native ctrl rh_id s).result = false := by
  rcases cstring_new_cases s with h | h <;> simp [send_remote_cmd, h, isIoError]

lemma encrypt_media_not_io (native : Native) (ctrl : Ptr) (s data : Bytes) :
    isIoError (encrypt_media native ctrl s data).result = false := by
  rcases cstring_new_cases s with h | h <;> simp [encrypt_media, h, isIoError]

lemma decrypt_media_not_io (native : Native) (s data : Bytes) :
    isIoError (decrypt_media native s data).result = false := by
  rcases cstring_new_cases s with h | h <;> simp [decrypt_media, h, isIoError]

lemma parse_markdown_not_io (native : Native) (s : Bytes) :
    isIoError (parse_markdown native s).result = false := by
  rcases cstring_new_cases s with h | h <;> simp [parse_markdown, h, isIoError]

lemma parse_server_not_io (native : Native) (s : Bytes) :
    isIoError (parse_server native s).result = false := by
  rcases cstring_new_cases s with h | h <;> simp [parse_server, h, isIoError]

lemma password_hash_not_io (native : Native) (s t : Bytes) :
    isIoError (password_hash native s t).result = false := by
  rcases cstring_new_cases s with h1 | h1 <;>
    rcases cstring_new_cases t with h2 | h2 <;>
      simp [password_hash, h1, h2, isIoError]

lemma valid_name_not_io (native : Native) (s : Bytes) :
    isIoError (valid_name native s).result = false := by
  rcases cstring_new_cases s with h | h <;> simp [valid_name, h, isIoError]

lemma json_length_not_io (native : Native) (s : Bytes) :
    isIoError (json_length native s).result = false := by
  rcases cstring_new_cases s with h | h <;> simp [json_length, h, isIoError]

lemma write_file_not_io (native : Native) (ctrl : Ptr) (s data : Bytes) :
    isIoError (write_file native ctrl s data).result = false := by
  rcases cstring_new_cases s with h | h <;> simp [write_file, h, isIoError]

lemma read_file_not_io (native : Native) (p k n : Bytes) :
    isIoError (read_file native p k n).result = false := by
  rcases cstring_new_cases p with h1 | h1 <;>
    rcases cstring_new_cases k with h2 | h2 <;>
      rcases cstring_new_cases n with h3 | h3 <;>
        simp only [read_file, h1, h2, h3] <;> try rfl
  cases native.chat_read_file (p ++ [0]) (k ++ [0]) (n ++ [0]) with
  | none => rfl
  | some bytes =>
    repeat' split
    all_goals rfl

lemma encrypt_file_not_io (native : Native) (ctrl : Ptr) (s t : Bytes) :
    isIoError (encrypt_file native ctrl s t).result = false := by
  rcases cstring_new_cases s with h1 | h1 <;>
    rcases cstring_new_cases t with h2 | h2 <;>
      simp [encrypt_file, h1, h2, isIoError]

lemma decrypt_file_not_io (native : Native) (s t u v : Bytes) :
    isIoError (decrypt_file native s t u v).result = false := by
  rcases cstring_new_cases s with h1 | h1 <;>
    rcases cstring_new_cases t with h2 | h2 <;>
      rcases cstring_new_cases u with h3 | h3 <;>
        rcases cstring_new_cases v with h4 | h4 <;>
          simp [decrypt_file, h1, h2, h3, h4, isIoError]

/-- C10: no public operation ever produces the `IoError` variant — although
the error type has it and a conversion from I/O errors exists, every error
actually produced is `InvalidString`, `NullPointer`, `Utf8Error` or
`ChatError`. -/
theorem no_io_error (native : Native) (ctrl : Ptr) (rh_id wait : Int) (kk bg : Bool)
    (s t u v data : Bytes) :
    isIoError (send_message native s).result = false ∧
    isIoError (migrate_init native s t u).result = false ∧
    isIoError (migrate_init_key native s t kk u bg).result = false ∧
    isIoError (close_store native ctrl).result = false ∧
    isIoError (reopen_store native ctrl).result = false ∧
    isIoError (send_cmd native ctrl s).result = false ∧
    isIoError (send_remote_cmd native ctrl rh_id s).result = false ∧
    isIoError (recv_msg native ctrl).result = false ∧
    isIoError (recv_msg_wait native ctrl wait).result = false ∧
    isIoError (encrypt_media native ctrl s data).result = false ∧
    isIoError (decrypt_media native s data).result = false ∧
    isIoError (parse_markdown native s).result = false ∧
    isIoError (parse_server native s).result = false ∧
    isIoError (password_hash native s t).result = false ∧
    isIoError (valid_name native s).result = false ∧
    isIoError (json_length native s).result = false ∧
    isIoError (write_file native ctrl s data).result = false ∧
    isIoError (read_file native s t u).result = false ∧
    isIoError (encrypt_file native ctrl s t).result = false ∧
    isIoError (decrypt_file native s t u v).result = false :=
  ⟨send_message_not_io native s,
   migrate_init_not_io native s t u,
   migrate_init_key_not_io native s t kk u bg,
   rfl,
   rfl,
   send_cmd_not_io native ctrl s,
   send_remote_cmd_not_io native ctrl rh_id s,
   rfl,
   rfl,
   encrypt_media_not_io native ctrl s data,
   decrypt_media_not_io native s data,
   parse_markdown_not_io native s,
   parse_server_not_io native s,
   password_hash_not_io native s t,
   valid_name_not_io native s,
   json_length_not_io native s,
   write_file_not_io native ctrl s data,
   read_file_not_io native s t u,
   encrypt_file_not_io native ctrl s t,
   decrypt_file_not_io native s t u v⟩

end Ffi
